import Mathlib

/-!
Verification development for the OpenTTD multiplayer synchronization protocol
excerpt: a shallow embedding in Lean 4 of the packet dispatcher, receive loops,
connection teardown, frame-counter synchronizer, command distribution, the
deferred connection deletion mechanism, and the loan commands, together with
theorems about them.

Embedding conventions:
* C++ enumerations become Lean inductive types; the wire byte of an enum
  member is recovered by an explicit `tag` function following declaration
  order in the source.
* Virtual per-packet-type dispatch is embedded by passing the table of
  overridden handlers as a function argument; a packet type whose entry is
  `none` uses the base-class `ReceiveInvalidPacket` stub, exactly as a
  non-overridden virtual method does in the source.
* Global mutable state touched by the embedded functions is gathered into
  explicit state structures threaded through the functions.
* Machine integers are modelled as `Nat`/`Int`; the loan arithmetic notes
  the `int64` bound (`MoneyMax`) explicitly where the source checks it.
-/

/-- Status of a network receive step, from the game protocol's status
enumeration. Only the members used by the embedded source fragments are
listed. -/
inductive NetworkRecvStatus where
  | OKAY
  | CONNECTION_LOST
  | CLIENT_QUIT
  | MALFORMED_PACKET
deriving DecidableEq, Repr

/-- Enum with all types of TCP game packets, in the declaration order of
`PacketGameType` in the source (tcp_game.h section). -/
inductive PacketGameType where
  | ServerFull
  | ServerBanned
  | ClientJoin
  | ServerError
  | ClientUnused
  | ServerUnused
  | ServerGameInfo
  | ClientGameInfo
  | ServerNewGame
  | ServerShutdown
  | ServerAuthenticationRequest
  | ClientAuthenticationResponse
  | ServerEnableEncryption
  | ClientIdentify
  | ServerCheckNewGRFs
  | ClientNewGRFsChecked
  | ServerWelcome
  | ServerClientInfo
  | ClientGetMap
  | ServerWaitForMap
  | ServerMapBegin
  | ServerMapSize
  | ServerMapData
  | ServerMapDone
  | ClientMapOk
  | ServerClientJoined
  | ServerFrame
  | ClientAck
  | ServerSync
  | ClientCommand
  | ServerCommand
  | ClientChat
  | ServerChat
  | ServerExternalChat
  | ClientRemoteConsoleCommand
  | ServerRemoteConsoleCommand
  | ClientMove
  | ServerMove
  | ClientSetName
  | ServerConfigurationUpdate
  | ClientQuit
  | ServerQuit
  | ClientError
  | ServerErrorQuit
deriving DecidableEq, Repr, Fintype

namespace PacketGameType

/-- The one-byte wire tag of a game packet type: its position in the
enumeration declaration (C++ enum values start at 0 and increment). -/
def tag : PacketGameType → Nat
  | .ServerFull => 0
  | .ServerBanned => 1
  | .ClientJoin => 2
  | .ServerError => 3
  | .ClientUnused => 4
  | .ServerUnused => 5
  | .ServerGameInfo => 6
  | .ClientGameInfo => 7
  | .ServerNewGame => 8
  | .ServerShutdown => 9
  | .ServerAuthenticationRequest => 10
  | .ClientAuthenticationResponse => 11
  | .ServerEnableEncryption => 12
  | .ClientIdentify => 13
  | .ServerCheckNewGRFs => 14
  | .ClientNewGRFsChecked => 15
  | .ServerWelcome => 16
  | .ServerClientInfo => 17
  | .ClientGetMap => 18
  | .ServerWaitForMap => 19
  | .ServerMapBegin => 20
  | .ServerMapSize => 21
  | .ServerMapData => 22
  | .ServerMapDone => 23
  | .ClientMapOk => 24
  | .ServerClientJoined => 25
  | .ServerFrame => 26
  | .ClientAck => 27
  | .ServerSync => 28
  | .ClientCommand => 29
  | .ServerCommand => 30
  | .ClientChat => 31
  | .ServerChat => 32
  | .ServerExternalChat => 33
  | .ClientRemoteConsoleCommand => 34
  | .ServerRemoteConsoleCommand => 35
  | .ClientMove => 36
  | .ServerMove => 37
  | .ClientSetName => 38
  | .ServerConfigurationUpdate => 39
  | .ClientQuit => 40
  | .ServerQuit => 41
  | .ClientError => 42
  | .ServerErrorQuit => 43

/-- Number of members of the `PacketGameType` enumeration. -/
def memberCount : Nat := 44

end PacketGameType

/-- The `switch (type)` of `NetworkGameSocketHandler::HandlePacket`: maps a
received tag byte to the packet type of the matching `case` label, or `none`
when the tag falls into the `default:` arm. The members `ClientUnused` and
`ServerUnused` have no `case` label in the source and therefore also fall
into the `default:` arm, as does every byte value outside the enumeration
(44 and up). -/
def gameSwitchCase : Nat → Option PacketGameType
  | 0 => some .ServerFull
  | 1 => some .ServerBanned
  | 2 => some .ClientJoin
  | 3 => some .ServerError
  | 4 => none
  | 5 => none
  | 6 => some .ServerGameInfo
  | 7 => some .ClientGameInfo
  | 8 => some .ServerNewGame
  | 9 => some .ServerShutdown
  | 10 => some .ServerAuthenticationRequest
  | 11 => some .ClientAuthenticationResponse
  | 12 => some .ServerEnableEncryption
  | 13 => some .ClientIdentify
  | 14 => some .ServerCheckNewGRFs
  | 15 => some .ClientNewGRFsChecked
  | 16 => some .ServerWelcome
  | 17 => some .ServerClientInfo
  | 18 => some .ClientGetMap
  | 19 => some .ServerWaitForMap
  | 20 => some .ServerMapBegin
  | 21 => some .ServerMapSize
  | 22 => some .ServerMapData
  | 23 => some .ServerMapDone
  | 24 => some .ClientMapOk
  | 25 => some .ServerClientJoined
  | 26 => some .ServerFrame
  | 27 => some .ClientAck
  | 28 => some .ServerSync
  | 29 => some .ClientCommand
  | 30 => some .ServerCommand
  | 31 => some .ClientChat
  | 32 => some .ServerChat
  | 33 => some .ServerExternalChat
  | 34 => some .ClientRemoteConsoleCommand
  | 35 => some .ServerRemoteConsoleCommand
  | 36 => some .ClientMove
  | 37 => some .ServerMove
  | 38 => some .ClientSetName
  | 39 => some .ServerConfigurationUpdate
  | 40 => some .ClientQuit
  | 41 => some .ServerQuit
  | 42 => some .ClientError
  | 43 => some .ServerErrorQuit
  | _ + 44 => none

/-- Status of the connection with the server, from the `ServerStatus`
enumeration of `ClientNetworkGameSocketHandler`. -/
inductive ServerStatus where
  | STATUS_INACTIVE
  | STATUS_JOIN
  | STATUS_AUTH_GAME
  | STATUS_ENCRYPTED
  | STATUS_NEWGRFS_CHECK
  | STATUS_AUTHORIZED
  | STATUS_MAP_WAIT
  | STATUS_MAP
  | STATUS_ACTIVE
  | STATUS_END
deriving DecidableEq, Repr, Fintype

/-- Observable events performed while tearing a connection down, used to
state in which order the teardown side effects happen. -/
inductive TeardownEvent where
  | emergencySave
  | discardConnection
deriving DecidableEq, Repr

/-- The state surrounding one game connection: the relevant globals
(`_network_server`, `_networking`, `_switch_mode`) together with the
per-connection client status and bookkeeping of the teardown side effects. -/
structure GameConn where
  network_server : Bool
  networking : Bool
  switch_mode_menu : Bool
  status : ServerStatus
  closed : Bool
  trace : List TeardownEvent
deriving DecidableEq, Repr

/-- Modelled from the spec: the state-machine effect of the derived-class
`CloseConnection(NetworkRecvStatus)` override, whose body is not part of the
sources (only declared in network_client.h). Per the spec, from any state a
connection-lost event always results in the Inactive state, the connection is
discarded, and the close reports the given status. -/
def virtualCloseConnection (st : NetworkRecvStatus) (s : GameConn) :
    NetworkRecvStatus × GameConn :=
  (st, { s with
          status := .STATUS_INACTIVE
          closed := true
          trace := s.trace ++ [.discardConnection] })

namespace NetworkGameSocketHandler

/-- The error overload `NetworkGameSocketHandler::CloseConnection(bool)`:
clients (not the server, while networking) perform the emergency save, drop
to the main menu, stop networking, and close with `CLIENT_QUIT`; everything
else closes with `CONNECTION_LOST`. The `ClientNetworkEmergencySave()` call
is recorded as the `emergencySave` event. -/
def CloseConnection (s : GameConn) : NetworkRecvStatus × GameConn :=
  if !s.network_server && s.networking then
    let s1 : GameConn :=
      { s with
          networking := false
          switch_mode_menu := true
          trace := s.trace ++ [.emergencySave] }
    virtualCloseConnection .CLIENT_QUIT s1
  else
    virtualCloseConnection .CONNECTION_LOST s

/-- Result of `NetworkGameSocketHandler::ReceiveInvalidPacket`: log and
report a malformed packet. -/
def ReceiveInvalidPacket : NetworkRecvStatus := .MALFORMED_PACKET

/-- The table of handlers a concrete socket handler overrides: `some h` when
the virtual receive method for that packet type is overridden with behaviour
`h`, `none` when the base-class default (which calls
`ReceiveInvalidPacket`) is in effect for the current role. -/
def HandlerTable : Type :=
  PacketGameType → Option (GameConn → NetworkRecvStatus × GameConn)

/-- `NetworkGameSocketHandler::HandlePacket`: read the tag byte, switch on
it; a matching `case` calls the virtual receive method for that packet type
(the override when present, else the base stub); the `default:` arm logs,
calls `CloseConnection()` (discarding its result) and reports
`MALFORMED_PACKET`. -/
def HandlePacket (ov : HandlerTable) (tagByte : Nat) (s : GameConn) :
    NetworkRecvStatus × GameConn :=
  match gameSwitchCase tagByte with
  | some t =>
    match ov t with
    | some h => h s
    | none => (ReceiveInvalidPacket, s)
  | none =>
    let r := CloseConnection s
    (.MALFORMED_PACKET, r.2)

end NetworkGameSocketHandler

/-- Modelled from the spec: the receive driver around `HandlePacket`
(`ClientNetworkGameSocketHandler::Receive` and its `ClientError` path are
not part of the sources). Per the spec's dispatcher contract, any packet
whose handling reports a condition other than OKAY leads to the connection
being closed. -/
def processPacket (ov : NetworkGameSocketHandler.HandlerTable) (tagByte : Nat)
    (s : GameConn) : NetworkRecvStatus × GameConn :=
  let r := NetworkGameSocketHandler.HandlePacket ov tagByte s
  if r.1 = .OKAY then r else (r.1, { r.2 with closed := true })

/-- `NetworkGameSocketHandler::ReceivePackets`: handle fully buffered
packets in order as long as `HandlePacket` returns OKAY; upon a different
status return it at once; with no (more) packets return OKAY. The handling
of one packet is abstracted as a function from the packet to its status. -/
def ReceivePackets (handle : α → NetworkRecvStatus) :
    List α → NetworkRecvStatus
  | [] => .OKAY
  | p :: rest =>
    let res := handle p
    if res = .OKAY then ReceivePackets handle rest else res

/-- Trace instrumentation of the same loop as `ReceivePackets`: the list of
packets on which `HandlePacket` is invoked, in invocation order. -/
def receiveHandledPackets (handle : α → NetworkRecvStatus) :
    List α → List α
  | [] => []
  | p :: rest =>
    if handle p = .OKAY then p :: receiveHandledPackets handle rest else [p]

/-- Modelled from the spec: the enumeration `PacketCoordinatorType` is
declared in tcp_coordinator.h, which is not among the sources; its member
names and dispatch order are taken from the `switch` in
`NetworkCoordinatorSocketHandler::HandlePacket` (tcp_coordinator.cpp), and
the terminal `End` count sentinel from the spec's wire-format section, which
requires each tag enumeration to end in an explicit count sentinel treated
as invalid on the wire. -/
inductive PacketCoordinatorType where
  | GameCoordinatorError
  | ServerRegister
  | GameCoordinatorRegisterAck
  | ServerUpdate
  | ClientListing
  | GameCoordinatorListing
  | ClientConnect
  | GameCoordinatorConnecting
  | ServerOrClientConnectFailed
  | GameCoordinatorConnectFailed
  | ClientConnected
  | GameCoordinatorDirectConnect
  | GameCoordinatorStunRequest
  | ServerOrClientStunResult
  | GameCoordinatorStunConnect
  | GameCoordinatorNewGRFLookup
  | GameCoordinatorTurnConnect
  | End
deriving DecidableEq, Repr, Fintype

namespace PacketCoordinatorType

/-- The one-byte wire tag of a coordinator packet type: its position in the
enumeration declaration. -/
def tag : PacketCoordinatorType → Nat
  | .GameCoordinatorError => 0
  | .ServerRegister => 1
  | .GameCoordinatorRegisterAck => 2
  | .ServerUpdate => 3
  | .ClientListing => 4
  | .GameCoordinatorListing => 5
  | .ClientConnect => 6
  | .GameCoordinatorConnecting => 7
  | .ServerOrClientConnectFailed => 8
  | .GameCoordinatorConnectFailed => 9
  | .ClientConnected => 10
  | .GameCoordinatorDirectConnect => 11
  | .GameCoordinatorStunRequest => 12
  | .ServerOrClientStunResult => 13
  | .GameCoordinatorStunConnect => 14
  | .GameCoordinatorNewGRFLookup => 15
  | .GameCoordinatorTurnConnect => 16
  | .End => 17

end PacketCoordinatorType

/-- The `switch (type)` of `NetworkCoordinatorSocketHandler::HandlePacket`:
maps a received tag byte to the packet type of the matching `case` label, or
`none` for the `default:` arm. The `End` sentinel has no `case` label, nor
has any byte value outside the enumeration. -/
def coordSwitchCase : Nat → Option PacketCoordinatorType
  | 0 => some .GameCoordinatorError
  | 1 => some .ServerRegister
  | 2 => some .GameCoordinatorRegisterAck
  | 3 => some .ServerUpdate
  | 4 => some .ClientListing
  | 5 => some .GameCoordinatorListing
  | 6 => some .ClientConnect
  | 7 => some .GameCoordinatorConnecting
  | 8 => some .ServerOrClientConnectFailed
  | 9 => some .GameCoordinatorConnectFailed
  | 10 => some .ClientConnected
  | 11 => some .GameCoordinatorDirectConnect
  | 12 => some .GameCoordinatorStunRequest
  | 13 => some .ServerOrClientStunResult
  | 14 => some .GameCoordinatorStunConnect
  | 15 => some .GameCoordinatorNewGRFLookup
  | 16 => some .GameCoordinatorTurnConnect
  | _ + 17 => none

namespace NetworkCoordinatorSocketHandler

/-- Result of `NetworkCoordinatorSocketHandler::ReceiveInvalidPacket`: log
and return false ("do not continue handling"). -/
def ReceiveInvalidPacket : Bool := false

/-- `NetworkCoordinatorSocketHandler::HandlePacket`: switch on the tag byte;
a matching `case` calls the virtual receive method (the override when
present, else the base stub returning false); the `default:` arm logs and
returns false. The boolean says whether further packets should be handled
immediately. -/
def HandlePacket (ov : PacketCoordinatorType → Option Bool) (tagByte : Nat) :
    Bool :=
  match coordSwitchCase tagByte with
  | some t =>
    match ov t with
    | some b => b
    | none => ReceiveInvalidPacket
  | none => false

/-- The arbitrary bound on packets handled per invocation of
`NetworkCoordinatorSocketHandler::ReceivePackets`. -/
def MAX_PACKETS_TO_RECEIVE : Nat := 42

/-- One step of the loop `while (--i != 0 && (p = ReceivePacket()) != nullptr)`
of `NetworkCoordinatorSocketHandler::ReceivePackets`. The first argument is
the current value of `i` before the `--i` of the condition; the buffered,
fully-framed packets are a list, each abstracted to the boolean its
`HandlePacket` call returns; the `Nat` result counts the packets handled.
On `HandlePacket` returning false the function returns true immediately; at
loop exit it returns `i != MAX_PACKETS_TO_RECEIVE - 1` for the current `i`. -/
def receiveLoop : Nat → List Bool → Nat → Nat × Bool
  | 0, _, handled => (handled, decide (0 ≠ MAX_PACKETS_TO_RECEIVE - 1))
  | i + 1, buffered, handled =>
    if i = 0 then
      (handled, decide (i ≠ MAX_PACKETS_TO_RECEIVE - 1))
    else
      match buffered with
      | [] => (handled, decide (i ≠ MAX_PACKETS_TO_RECEIVE - 1))
      | cont :: rest =>
        if cont then receiveLoop i rest (handled + 1)
        else (handled + 1, true)

/-- `NetworkCoordinatorSocketHandler::ReceivePackets`: run the loop with
`i = MAX_PACKETS_TO_RECEIVE` over the buffered packets. Returns how many
packets were handled and the function's boolean result. -/
def ReceivePackets (buffered : List Bool) : Nat × Bool :=
  receiveLoop MAX_PACKETS_TO_RECEIVE buffered 0

end NetworkCoordinatorSocketHandler

/-- The three frame counters of one participant, from network_internal.h:
`_frame_counter` (local executed frame), `_frame_counter_max` (the frame
ceiling, "to where we may go with our clients") and `_last_sync_frame`
(last frame for which a sync packet was exchanged). -/
structure FrameState where
  frame_counter : Nat
  frame_counter_max : Nat
  last_sync_frame : Nat
deriving DecidableEq, Repr

/-- The initial frame state: all counters start at zero. -/
def initFrameState : FrameState := ⟨0, 0, 0⟩

/-- Modelled from the spec: the protocol operations touching the frame
counters. The code updating `_frame_counter`, `_frame_counter_max` and
`_last_sync_frame` (network.cpp, network_client.cpp, network_server.cpp) is
not among the sources; the operations follow the spec's synchronizer
section: executing one simulation frame (only below the ceiling), receiving
a frame packet raising the ceiling, and recording a sync exchange at the
current frame. -/
inductive FrameOp where
  | executeFrame
  | receiveFrameCeiling (m : Nat)
  | recordSync
deriving DecidableEq, Repr

/-- Modelled from the spec: effect of one protocol operation on the frame
counters. A participant only steps its local frame while strictly below the
frame ceiling; a received ceiling never lowers the stored ceiling (the
counters are monotonically non-decreasing); a sync exchange records the
current frame. -/
def frameStep (op : FrameOp) (s : FrameState) : FrameState :=
  match op with
  | .executeFrame =>
    if s.frame_counter < s.frame_counter_max then
      { s with frame_counter := s.frame_counter + 1 }
    else s
  | .receiveFrameCeiling m =>
    { s with frame_counter_max := Nat.max s.frame_counter_max m }
  | .recordSync =>
    { s with last_sync_frame := Nat.max s.last_sync_frame s.frame_counter }

/-- Run a sequence of protocol operations from a state. -/
def frameRun (ops : List FrameOp) (s : FrameState) : FrameState :=
  match ops with
  | [] => s
  | op :: rest => frameRun rest (frameStep op s)

/-- The frame invariant of the spec: the local executed frame never exceeds
the frame ceiling. -/
def frameInv (s : FrameState) : Prop :=
  s.frame_counter ≤ s.frame_counter_max

/-- Componentwise order on frame states: every counter of the first state is
at most the corresponding counter of the second. -/
def frameLe (s t : FrameState) : Prop :=
  s.frame_counter ≤ t.frame_counter ∧
  s.frame_counter_max ≤ t.frame_counter_max ∧
  s.last_sync_frame ≤ t.last_sync_frame

/-- Everything we need to know about a command to be able to execute it,
from `CommandPacket` in network_internal.h. The parameter buffer, command
identifier, company, error string and callback are carried as numbers and a
byte list; `my_cmd` is the "did the command originate from me" flag. -/
structure CommandPacket where
  company : Nat
  frame : Nat
  my_cmd : Bool
  cmd : Nat
  err_msg : Nat
  callback : Nat
  data : List Nat
deriving DecidableEq, Repr

/-- Little-endian byte encoding of a 32-bit value, as the packet framer's
`Send_uint32` writes it. -/
def u32le (n : Nat) : List Nat :=
  [n % 256, n / 256 % 256, n / 65536 % 256, n / 16777216 % 256]

namespace NetworkGameSocketHandler

/-- Modelled from the spec: the body serialized by
`NetworkGameSocketHandler::SendCommand(Packet &, const CommandPacket &)`
(network_command.cpp, not among the sources). The field list follows the
wire-format documentation of `ReceiveClientCommand` in the sources: company
(one byte), command id (uint32), the command-specific parameter buffer, and
the callback id (one byte). -/
def SendCommand (cp : CommandPacket) : List Nat :=
  [cp.company % 256] ++ u32le cp.cmd ++ cp.data ++ [cp.callback % 256]

/-- Modelled from the spec: the body of a `ServerCommand` packet. Per the
wire-format documentation of `ReceiveServerCommand` in the sources it
carries the same fields as `SendCommand` writes, followed by the frame of
execution (uint32): the server appends the frame to the shared field list. -/
def SendCommandWithFrame (cp : CommandPacket) : List Nat :=
  SendCommand cp ++ u32le cp.frame

end NetworkGameSocketHandler

/-- Modelled from the spec: the frame the authoritative side assigns to an
accepted command (the assignment in network_command.cpp is not among the
sources). Per the spec's distribution-queue section and its Scenario A (a
command received at frame 1000 with lead time 5 is assigned frame 1005),
the assigned frame is the current frame plus the fixed lead time. -/
def assignExecutionFrame (current lead : Nat) : Nat := current + lead

/-- Modelled from the spec: the authoritative side populates the `frame`
field of an accepted command packet with the assigned execution frame. -/
def distributeCommand (current lead : Nat) (cp : CommandPacket) :
    CommandPacket :=
  { cp with frame := assignExecutionFrame current lead }

/-- Modelled from the spec: a participant buffers an echoed command until
the local executed frame reaches the command's assigned frame; only then may
it be applied. -/
def canExecuteCommand (frame_counter : Nat) (cp : CommandPacket) : Bool :=
  decide (cp.frame ≤ frame_counter)

/-- State of the deferred-deletion mechanism of tcp_game.cpp: handlers are
identified by numbers; `pending` is the set of handlers whose
`is_pending_deletion` flag is set, `deferredList` mirrors the
`_deferred_deletions` vector (in insertion order), `destroyed` logs every
handler destruction in order, and `dispatched` logs every packet dispatch
that actually reached a handler. -/
structure DeletionState where
  pending : List Nat
  deferredList : List Nat
  destroyed : List Nat
  dispatched : List Nat
deriving DecidableEq, Repr

/-- Operations of the cooperative loop that touch the deferred-deletion
mechanism: `NetworkGameSocketHandler::DeferDeletion()` on a handler,
`NetworkGameSocketHandler::ProcessDeferredDeletions()`, and the loop
dispatching a buffered packet to a handler. -/
inductive DeletionOp where
  | deferDeletion (h : Nat)
  | processDeferredDeletions
  | dispatchPacket (h : Nat)
deriving DecidableEq, Repr

/-- `NetworkGameSocketHandler::IsPendingDeletion` for handler `h`. -/
def IsPendingDeletion (s : DeletionState) (h : Nat) : Bool := h ∈ s.pending

/-- Effect of one loop operation on the deferred-deletion state.
`deferDeletion h` appends `h` to `_deferred_deletions` and sets its
`is_pending_deletion` flag; `processDeferredDeletions` clears the vector,
destroying every element (`clear()` calls the deleter on all items, in
order); `dispatchPacket h` delivers a packet to `h` — modelled from the
spec's cancellation section, the loop never dispatches to a handler marked
pending deletion (the guarding caller is not among the sources). -/
def deletionStep (op : DeletionOp) (s : DeletionState) : DeletionState :=
  match op with
  | .deferDeletion h =>
    { s with
        deferredList := s.deferredList ++ [h]
        pending := h :: s.pending }
  | .processDeferredDeletions =>
    { s with
        destroyed := s.destroyed ++ s.deferredList
        deferredList := [] }
  | .dispatchPacket h =>
    if IsPendingDeletion s h then s
    else { s with dispatched := s.dispatched ++ [h] }

/-- `LOAN_INTERVAL` from economy_type.h (not among the sources; the claims
do not depend on its numeric value, only on its use in the loan checks). -/
def LOAN_INTERVAL : Int := 10000

/-- `Money::max()`: `Money` is a 64-bit overflow-safe signed integer, so its
maximum is `2^63 - 1`. -/
def MoneyMax : Int := 9223372036854775807

/-- The fields of a company that `CmdIncreaseLoan` reads or writes: its bank
balance, its current loan, and the result of `GetMaxLoan()`. -/
structure Company where
  money : Int
  current_loan : Int
  max_loan : Int
deriving DecidableEq, Repr

/-- The loan subcommand selector of `CmdIncreaseLoan`/`CmdDecreaseLoan`. -/
inductive LoanCommand where
  | Interval
  | Max
  | Amount
deriving DecidableEq, Repr

/-- Whether a command returned a cost or an error (any of `CMD_ERROR`,
`CommandCostWithParam(STR_ERROR_...)`, `CommandCost(STR_ERROR_...)`). -/
inductive CmdResult where
  | success
  | error
deriving DecidableEq, Repr

/-- The loan amount the `switch (cmd)` of `CmdIncreaseLoan` computes for
each subcommand: `LOAN_INTERVAL`, the remaining headroom up to the maximum
loan, or the requested amount. -/
def requestedLoan (c : Company) (cmd : LoanCommand) (amount : Int) : Int :=
  match cmd with
  | .Interval => LOAN_INTERVAL
  | .Max => c.max_loan - c.current_loan
  | .Amount => amount

/-- `CmdIncreaseLoan` (misc_cmd.cpp): error when the current loan already
reached the maximum; compute the loan per subcommand (validating the
requested amount for `Amount`); error when adding the loan would trigger the
overflow protection of `Money` (`c->money > Money::max() - loan`); only with
`DoCommandFlag::Execute` set add the loan to the company's money and current
loan. Returns the command result and the resulting company state. -/
def CmdIncreaseLoan (execute : Bool) (c : Company) (cmd : LoanCommand)
    (amount : Int) : CmdResult × Company :=
  if c.max_loan ≤ c.current_loan then (.error, c)
  else
    let validated : Option Int :=
      match cmd with
      | .Interval => some LOAN_INTERVAL
      | .Max => some (c.max_loan - c.current_loan)
      | .Amount =>
        if amount < LOAN_INTERVAL ∨ c.max_loan < c.current_loan + amount ∨
            amount % LOAN_INTERVAL ≠ 0 then none
        else some amount
    match validated with
    | none => (.error, c)
    | some loan =>
      if MoneyMax - loan < c.money then (.error, c)
      else if execute then
        (.success,
          { c with
              money := c.money + loan
              current_loan := c.current_loan + loan })
      else (.success, c)

section ReceiveLoopLemmas

variable {α : Type _}

lemma receivePackets_all_okay (handle : α → NetworkRecvStatus) :
    ∀ packets : List α, (∀ p ∈ packets, handle p = .OKAY) →
      ReceivePackets handle packets = .OKAY ∧
      receiveHandledPackets handle packets = packets := by
  intro packets
  induction packets with
  | nil => intro _; exact ⟨rfl, rfl⟩
  | cons p rest ih =>
    intro hall
    have hp : handle p = .OKAY := hall p (List.mem_cons_self p rest)
    have hrest := ih (fun q hq => hall q (List.mem_cons_of_mem p hq))
    simp [ReceivePackets, receiveHandledPackets, hp, hrest.1, hrest.2]

lemma receivePackets_first_failure (handle : α → NetworkRecvStatus)
    (q : α) (post : List α) :
    ∀ pre : List α, (∀ p ∈ pre, handle p = .OKAY) → handle q ≠ .OKAY →
      ReceivePackets handle (pre ++ q :: post) = handle q ∧
      receiveHandledPackets handle (pre ++ q :: post) = pre ++ [q] := by
  intro pre
  induction pre with
  | nil =>
    intro _ hq
    simp [ReceivePackets, receiveHandledPackets, hq]
  | cons p pre' ih =>
    intro hall hq
    have hp : handle p = .OKAY := hall p (List.mem_cons_self p pre')
    have hrec := ih (fun r hr => hall r (List.mem_cons_of_mem p hr)) hq
    simp [ReceivePackets, receiveHandledPackets, hp, hrec.1, hrec.2]

end ReceiveLoopLemmas

/-- C2: `NetworkGameSocketHandler::ReceivePackets` handles buffered packets
strictly in arrival order and stops at the first packet whose handling
returns a status other than OKAY, returning that status with no later packet
handled; when every handled packet yields OKAY (in particular with no
buffered packet) it returns OKAY after handling them all. -/
theorem C2_receive_packets_stop_at_first_failure {α : Type _}
    (handle : α → NetworkRecvStatus) (packets pre post : List α) (q : α) :
    (packets = pre ++ q :: post → (∀ p ∈ pre, handle p = .OKAY) →
      handle q ≠ .OKAY →
      ReceivePackets handle packets = handle q ∧
      receiveHandledPackets handle packets = pre ++ [q]) ∧
    ((∀ p ∈ packets, handle p = .OKAY) →
      ReceivePackets handle packets = .OKAY ∧
      receiveHandledPackets handle packets = packets) := by
  constructor
  · intro hsplit hpre hq
    subst hsplit
    exact receivePackets_first_failure handle q post pre hpre hq
  · intro hall
    exact receivePackets_all_okay handle packets hall

/-- C2 witness: on the concrete buffer where the third packet is the first
to report a terminal status, the loop returns that status having handled
exactly the first three packets; on an all-OKAY buffer it returns OKAY. -/
theorem C2_witness :
    ReceivePackets (fun n : Nat => if n = 3 then .CONNECTION_LOST else .OKAY)
        [1, 2, 3, 4, 5] = .CONNECTION_LOST ∧
    receiveHandledPackets
        (fun n : Nat => if n = 3 then .CONNECTION_LOST else .OKAY)
        [1, 2, 3, 4, 5] = [1, 2, 3] ∧
    ReceivePackets (fun _ : Nat => .OKAY) [1, 2] = .OKAY := by
  refine ⟨?_, ?_, ?_⟩
  · exact ((C2_receive_packets_stop_at_first_failure
      (fun n : Nat => if n = 3 then .CONNECTION_LOST else .OKAY)
      [1, 2, 3, 4, 5] [1, 2] [4, 5] 3).1 rfl (by decide) (by decide)).1
  · exact ((C2_receive_packets_stop_at_first_failure
      (fun n : Nat => if n = 3 then .CONNECTION_LOST else .OKAY)
      [1, 2, 3, 4, 5] [1, 2] [4, 5] 3).1 rfl (by decide) (by decide)).2
  · exact ((C2_receive_packets_stop_at_first_failure
      (fun _ : Nat => .OKAY) [1, 2] [] [] 0).2 (by decide)).1


namespace NetworkCoordinatorSocketHandler

lemma receiveLoop_zero (buffered : List Bool) (handled : Nat) :
    receiveLoop 0 buffered handled =
      (handled, decide ((0 : Nat) ≠ MAX_PACKETS_TO_RECEIVE - 1)) := rfl

lemma receiveLoop_one (buffered : List Bool) (handled : Nat) :
    receiveLoop 1 buffered handled =
      (handled, decide ((0 : Nat) ≠ MAX_PACKETS_TO_RECEIVE - 1)) := rfl

lemma receiveLoop_step_nil (k : Nat) (handled : Nat) :
    receiveLoop (k + 2) [] handled =
      (handled, decide (k + 1 ≠ MAX_PACKETS_TO_RECEIVE - 1)) := rfl

lemma receiveLoop_step_cons (k : Nat) (cont : Bool) (rest : List Bool)
    (handled : Nat) :
    receiveLoop (k + 2) (cont :: rest) handled =
      if cont then receiveLoop (k + 1) rest (handled + 1)
      else (handled + 1, true) := rfl

lemma receiveLoop_count_le :
    ∀ (i : Nat) (buffered : List Bool) (handled : Nat),
      (receiveLoop (i + 1) buffered handled).1 ≤ handled + i := by
  intro i
  induction i with
  | zero =>
    intro buffered handled
    rw [receiveLoop_one]
    exact Nat.le_add_right handled 0
  | succ k ih =>
    intro buffered handled
    match buffered with
    | [] =>
      rw [receiveLoop_step_nil]
      exact Nat.le_add_right handled (k + 1)
    | cont :: rest =>
      rw [receiveLoop_step_cons]
      cases cont with
      | true =>
        rw [if_pos rfl]
        have := ih rest (handled + 1)
        omega
      | false =>
        rw [if_neg (by simp)]
        omega

lemma receiveLoop_count_ge :
    ∀ (i : Nat) (buffered : List Bool) (handled : Nat),
      handled ≤ (receiveLoop i buffered handled).1 := by
  intro i
  induction i with
  | zero =>
    intro buffered handled
    rw [receiveLoop_zero]
  | succ k ih =>
    intro buffered handled
    match k with
    | 0 =>
      rw [receiveLoop_one]
    | m + 1 =>
      match buffered with
      | [] =>
        rw [receiveLoop_step_nil]
      | cont :: rest =>
        rw [receiveLoop_step_cons]
        cases cont with
        | true =>
          rw [if_pos rfl]
          have := ih rest (handled + 1)
          omega
        | false =>
          rw [if_neg (by simp)]
          omega

lemma receiveLoop_flag_of_le :
    ∀ (i : Nat) (buffered : List Bool) (handled : Nat), i ≤ 40 →
      (receiveLoop (i + 1) buffered handled).2 = true := by
  intro i
  induction i with
  | zero =>
    intro buffered handled _
    rw [receiveLoop_one]
    exact decide_eq_true
      (show (0 : Nat) ≠ MAX_PACKETS_TO_RECEIVE - 1 by decide)
  | succ k ih =>
    intro buffered handled hle
    match buffered with
    | [] =>
      rw [receiveLoop_step_nil]
      exact decide_eq_true (by
        have hm : MAX_PACKETS_TO_RECEIVE - 1 = 41 := rfl
        omega)
    | cont :: rest =>
      rw [receiveLoop_step_cons]
      cases cont with
      | true =>
        rw [if_pos rfl]
        exact ih rest (handled + 1) (by omega)
      | false =>
        rw [if_neg (by simp)]

lemma receiveLoop_max_nil (handled : Nat) :
    receiveLoop MAX_PACKETS_TO_RECEIVE [] handled = (handled, false) := rfl

lemma receiveLoop_max_cons (cont : Bool) (rest : List Bool) (handled : Nat) :
    receiveLoop MAX_PACKETS_TO_RECEIVE (cont :: rest) handled =
      if cont then receiveLoop 41 rest (handled + 1)
      else (handled + 1, true) := rfl

end NetworkCoordinatorSocketHandler

/-- C9: one invocation of `NetworkCoordinatorSocketHandler::ReceivePackets`
handles at most `MAX_PACKETS_TO_RECEIVE - 1 = 41` buffered packets, and its
boolean result is true exactly when at least one packet was handled. -/
theorem C9_coordinator_receive_bound (buffered : List Bool) :
    (NetworkCoordinatorSocketHandler.ReceivePackets buffered).1 ≤ 41 ∧
    ((NetworkCoordinatorSocketHandler.ReceivePackets buffered).2 = true ↔
      1 ≤ (NetworkCoordinatorSocketHandler.ReceivePackets buffered).1) ∧
    NetworkCoordinatorSocketHandler.MAX_PACKETS_TO_RECEIVE - 1 = 41 := by
  unfold NetworkCoordinatorSocketHandler.ReceivePackets
  match buffered with
  | [] =>
    rw [NetworkCoordinatorSocketHandler.receiveLoop_max_nil]
    exact ⟨by decide, by decide, rfl⟩
  | cont :: rest =>
    rw [NetworkCoordinatorSocketHandler.receiveLoop_max_cons]
    cases cont with
    | true =>
      rw [if_pos rfl]
      have hle := NetworkCoordinatorSocketHandler.receiveLoop_count_le
        40 rest (0 + 1)
      have hge := NetworkCoordinatorSocketHandler.receiveLoop_count_ge
        (40 + 1) rest (0 + 1)
      have hflag := NetworkCoordinatorSocketHandler.receiveLoop_flag_of_le
        40 rest (0 + 1) (by omega)
      have h41 : (40 : Nat) + 1 = 41 := rfl
      rw [h41] at hle hge hflag
      refine ⟨by omega, ?_, rfl⟩
      rw [hflag]
      constructor
      · intro _
        omega
      · intro _
        rfl
    | false =>
      rw [if_neg (by simp)]
      exact ⟨by decide, by decide, rfl⟩

/-- C10: `CmdIncreaseLoan` returns an error whenever adding the requested
loan would trigger the overflow protection of `Money`
(`c->money > Money::max() - loan`), and in every error case — as well as
whenever the Execute flag is not set — the company's `money` and
`current_loan` are unchanged. -/
theorem C10_increase_loan_overflow_and_purity (execute : Bool) (c : Company)
    (cmd : LoanCommand) (amount : Int) :
    (MoneyMax - requestedLoan c cmd amount < c.money →
      (CmdIncreaseLoan execute c cmd amount).1 = .error) ∧
    ((CmdIncreaseLoan execute c cmd amount).1 = .error →
      (CmdIncreaseLoan execute c cmd amount).2 = c) ∧
    (execute = false → (CmdIncreaseLoan execute c cmd amount).2 = c) := by
  cases cmd <;>
    simp only [CmdIncreaseLoan, requestedLoan] <;>
    split_ifs <;>
    simp_all <;>
    split_ifs <;>
    simp_all

/-- C10 witness: a company whose bank balance already equals `Money::max()`
gets an error from `CmdIncreaseLoan` (the overflow guard), its fields
untouched; without the Execute flag the fields are untouched as well. -/
theorem C10_witness :
    (CmdIncreaseLoan true ⟨MoneyMax, 0, 20000⟩ .Interval 0).1 = .error ∧
    (CmdIncreaseLoan true ⟨MoneyMax, 0, 20000⟩ .Interval 0).2 =
      ⟨MoneyMax, 0, 20000⟩ ∧
    (CmdIncreaseLoan false ⟨MoneyMax, 0, 20000⟩ .Interval 0).2 =
      ⟨MoneyMax, 0, 20000⟩ := by
  have h1 := (C10_increase_loan_overflow_and_purity true ⟨MoneyMax, 0, 20000⟩
    .Interval 0).1 (by decide)
  have h2 := (C10_increase_loan_overflow_and_purity true ⟨MoneyMax, 0, 20000⟩
    .Interval 0).2.1 h1
  have h3 := (C10_increase_loan_overflow_and_purity false ⟨MoneyMax, 0, 20000⟩
    .Interval 0).2.2 rfl
  exact ⟨h1, h2, h3⟩

/-- C1: for every received game packet whose tag byte falls into the
`default:` arm of the dispatch switch (in particular every byte that is not
a member of `PacketGameType`), or whose tag dispatches to the base-class
"not valid in this role" stub, packet handling reports
`NETWORK_RECV_STATUS_MALFORMED_PACKET` and the connection ends up closed. -/
theorem C1_invalid_or_stub_packet_is_malformed_and_closes
    (ov : NetworkGameSocketHandler.HandlerTable) (tagByte : Nat)
    (s : GameConn)
    (h : gameSwitchCase tagByte = none ∨
      ∃ t, gameSwitchCase tagByte = some t ∧ ov t = none) :
    (NetworkGameSocketHandler.HandlePacket ov tagByte s).1 =
      .MALFORMED_PACKET ∧
    (processPacket ov tagByte s).1 = .MALFORMED_PACKET ∧
    (processPacket ov tagByte s).2.closed = true := by
  rcases h with hnone | ⟨t, hcase, hov⟩
  · simp only [NetworkGameSocketHandler.HandlePacket, hnone, processPacket,
      NetworkGameSocketHandler.CloseConnection, virtualCloseConnection]
    split_ifs <;> simp_all
  · simp only [NetworkGameSocketHandler.HandlePacket, hcase, hov, processPacket,
      NetworkGameSocketHandler.ReceiveInvalidPacket]
    simp

/-- C1 witness: tag byte 44 (outside the enumeration) and tag byte 26
(`ServerFrame`, whose handler is the base stub when not overridden) both
yield a malformed-packet status and a closed connection, on a concrete
client connection state. -/
theorem C1_witness :
    (NetworkGameSocketHandler.HandlePacket (fun _ => none) 44
      ⟨false, true, false, .STATUS_ACTIVE, false, []⟩).1 =
      .MALFORMED_PACKET ∧
    (processPacket (fun _ => none) 44
      ⟨false, true, false, .STATUS_ACTIVE, false, []⟩).2.closed = true ∧
    (processPacket (fun _ => none) 26
      ⟨false, true, false, .STATUS_ACTIVE, false, []⟩).1 =
      .MALFORMED_PACKET := by
  refine ⟨?_, ?_, ?_⟩
  · exact (C1_invalid_or_stub_packet_is_malformed_and_closes (fun _ => none)
      44 ⟨false, true, false, .STATUS_ACTIVE, false, []⟩ (Or.inl rfl)).1
  · exact (C1_invalid_or_stub_packet_is_malformed_and_closes (fun _ => none)
      44 ⟨false, true, false, .STATUS_ACTIVE, false, []⟩ (Or.inl rfl)).2.2
  · exact (C1_invalid_or_stub_packet_is_malformed_and_closes (fun _ => none)
      26 ⟨false, true, false, .STATUS_ACTIVE, false, []⟩
      (Or.inr ⟨.ServerFrame, rfl, rfl⟩)).2.1

/-- Whether the game packet-type enumeration has a terminal count sentinel:
a member whose tag is at least every member's tag and whose tag the dispatch
switch treats as invalid (no `case` label). -/
def gameHasTerminalSentinel : Bool :=
  decide (∃ s : PacketGameType, (∀ t : PacketGameType, t.tag ≤ s.tag) ∧
    gameSwitchCase s.tag = none)

/-- Whether the coordinator packet-type enumeration has a terminal count
sentinel, analogously. -/
def coordHasTerminalSentinel : Bool :=
  decide (∃ s : PacketCoordinatorType,
    (∀ t : PacketCoordinatorType, t.tag ≤ s.tag) ∧
    coordSwitchCase s.tag = none)

/-- C5 counterexample: `PacketGameType` has no terminal count sentinel
member — its highest-tag member is `ServerErrorQuit` (tag 43), which the
dispatch switch maps to a real handler, not to the invalid default. -/
theorem C5_counterexample_no_game_sentinel :
    gameHasTerminalSentinel = false ∧
    PacketGameType.tag .ServerErrorQuit = 43 ∧
    gameSwitchCase 43 = some .ServerErrorQuit := by
  refine ⟨?_, rfl, rfl⟩
  decide

/-- C5 (amended): the coordinator enumeration carries an explicit terminal
`End` count sentinel whose tag the dispatcher treats as invalid on the wire,
while the game enumeration has no such sentinel member; there, every
received tag byte outside the 44 declared members falls into the invalid
default of the dispatch switch and is reported as a malformed packet. -/
theorem C5_sentinel_handling
    (n : Nat) (ov : NetworkGameSocketHandler.HandlerTable) (s : GameConn)
    (covr : PacketCoordinatorType → Option Bool)
    (hn : PacketGameType.memberCount ≤ n) :
    coordHasTerminalSentinel = true ∧
    coordSwitchCase (PacketCoordinatorType.tag .End) = none ∧
    NetworkCoordinatorSocketHandler.HandlePacket covr
      (PacketCoordinatorType.tag .End) = false ∧
    gameHasTerminalSentinel = false ∧
    gameSwitchCase n = none ∧
    (NetworkGameSocketHandler.HandlePacket ov n s).1 = .MALFORMED_PACKET := by
  have hsw : gameSwitchCase n = none := by
    obtain ⟨k, hk⟩ := Nat.exists_eq_add_of_le hn
    rw [hk, Nat.add_comm]
    rfl
  refine ⟨by decide, rfl, rfl, by decide, hsw, ?_⟩
  simp only [NetworkGameSocketHandler.HandlePacket, hsw]

/-- C5 witness: at the concrete tag byte 44 = `PacketGameType::memberCount`
the game dispatcher reports a malformed packet, and the coordinator
dispatcher rejects the `End` sentinel's tag. -/
theorem C5_witness :
    gameSwitchCase 44 = none ∧
    (NetworkGameSocketHandler.HandlePacket (fun _ => none) 44
      ⟨false, true, false, .STATUS_ACTIVE, false, []⟩).1 =
      .MALFORMED_PACKET ∧
    NetworkCoordinatorSocketHandler.HandlePacket (fun _ => none)
      (PacketCoordinatorType.tag .End) = false := by
  refine ⟨?_, ?_, ?_⟩
  · exact (C5_sentinel_handling 44 (fun _ => none)
      ⟨false, true, false, .STATUS_ACTIVE, false, []⟩ (fun _ => none)
      (by decide)).2.2.2.2.1
  · exact (C5_sentinel_handling 44 (fun _ => none)
      ⟨false, true, false, .STATUS_ACTIVE, false, []⟩ (fun _ => none)
      (by decide)).2.2.2.2.2
  · exact (C5_sentinel_handling 44 (fun _ => none)
      ⟨false, true, false, .STATUS_ACTIVE, false, []⟩ (fun _ => none)
      (by decide)).2.2.1

/-- C6: for every connection state, a connection-lost close on the
non-authoritative side while networking is active leaves the connection in
the Inactive state with the emergency local save performed before the
connection is discarded, returning `CLIENT_QUIT`; in every other
configuration the close returns `CONNECTION_LOST`, the state is Inactive,
and no emergency save happens. -/
theorem C6_connection_lost_teardown (s : GameConn) :
    (s.network_server = false → s.networking = true →
      NetworkGameSocketHandler.CloseConnection s =
        (.CLIENT_QUIT,
          { s with
              networking := false
              switch_mode_menu := true
              status := .STATUS_INACTIVE
              closed := true
              trace := s.trace ++ [.emergencySave, .discardConnection] })) ∧
    (s.network_server = true ∨ s.networking = false →
      NetworkGameSocketHandler.CloseConnection s =
        (.CONNECTION_LOST,
          { s with
              status := .STATUS_INACTIVE
              closed := true
              trace := s.trace ++ [.discardConnection] })) := by
  constructor
  · intro hsrv hnet
    simp [NetworkGameSocketHandler.CloseConnection, virtualCloseConnection,
      hsrv, hnet]
  · intro hcase
    rcases hcase with hsrv | hnet
    · simp [NetworkGameSocketHandler.CloseConnection, virtualCloseConnection,
        hsrv]
    · simp [NetworkGameSocketHandler.CloseConnection, virtualCloseConnection,
        hnet]

/-- C6 witness: a client in the map-downloading state with networking
active performs the emergency save, ends Inactive and closed with
`CLIENT_QUIT`; a server-side close ends Inactive with `CONNECTION_LOST`. -/
theorem C6_witness :
    NetworkGameSocketHandler.CloseConnection
        ⟨false, true, false, .STATUS_MAP, false, []⟩ =
      (.CLIENT_QUIT, ⟨false, false, true, .STATUS_INACTIVE, true,
        [.emergencySave, .discardConnection]⟩) ∧
    NetworkGameSocketHandler.CloseConnection
        ⟨true, true, false, .STATUS_ACTIVE, false, []⟩ =
      (.CONNECTION_LOST, ⟨true, true, false, .STATUS_INACTIVE, true,
        [.discardConnection]⟩) := by
  constructor
  · exact (C6_connection_lost_teardown
      ⟨false, true, false, .STATUS_MAP, false, []⟩).1 rfl rfl
  · exact (C6_connection_lost_teardown
      ⟨true, true, false, .STATUS_ACTIVE, false, []⟩).2 (Or.inl rfl)

/-- C7: deleting a game connection is two-phase. Right after
`DeferDeletion`, `IsPendingDeletion` is true and further packets are no
longer dispatched to the handler; no operation other than
`ProcessDeferredDeletions` destroys anything; `ProcessDeferredDeletions`
empties the deferred list and destroys each deferred handler exactly once
(the destruction count of every handler grows by exactly its number of
entries in the deferred list). -/
theorem C7_two_phase_deletion (s : DeletionState) (h g : Nat)
    (op : DeletionOp) :
    IsPendingDeletion (deletionStep (.deferDeletion h) s) h = true ∧
    (op ≠ .processDeferredDeletions →
      (deletionStep op s).destroyed = s.destroyed) ∧
    (deletionStep .processDeferredDeletions s).deferredList = [] ∧
    (deletionStep .processDeferredDeletions s).destroyed =
      s.destroyed ++ s.deferredList ∧
    ((deletionStep .processDeferredDeletions s).destroyed.count g =
      s.destroyed.count g + s.deferredList.count g) ∧
    (IsPendingDeletion s h = true →
      (deletionStep (.dispatchPacket h) s).dispatched = s.dispatched) := by
  refine ⟨?_, ?_, rfl, rfl, ?_, ?_⟩
  · simp [deletionStep, IsPendingDeletion]
  · intro hop
    cases op with
    | deferDeletion h0 => rfl
    | processDeferredDeletions => exact absurd rfl hop
    | dispatchPacket h0 =>
      simp only [deletionStep]
      split_ifs <;> rfl
  · simp [deletionStep, List.count_append]
  · intro hpend
    simp [deletionStep, hpend]

/-- C7 witness: on a concrete state with handler 5 already pending and
handler 7 deferred, deferring handler 3 marks it pending at once, a
dispatch operation destroys nothing, and dispatching to the pending
handler 5 is suppressed. -/
theorem C7_witness :
    IsPendingDeletion
      (deletionStep (.deferDeletion 3) ⟨[5], [7], [], []⟩) 3 = true ∧
    (deletionStep (.dispatchPacket 5) ⟨[5], [7], [], []⟩).destroyed = [] ∧
    (deletionStep (.dispatchPacket 5) ⟨[5], [7], [], []⟩).dispatched =
      [] := by
  refine ⟨?_, ?_, ?_⟩
  · exact (C7_two_phase_deletion ⟨[5], [7], [], []⟩ 3 0
      (.dispatchPacket 5)).1
  · exact (C7_two_phase_deletion ⟨[5], [7], [], []⟩ 3 0
      (.dispatchPacket 5)).2.1 (by simp)
  · exact (C7_two_phase_deletion ⟨[5], [7], [], []⟩ 5 0
      (.dispatchPacket 5)).2.2.2.2.2 (by decide)

lemma frameStep_preserves_inv (op : FrameOp) (s : FrameState)
    (hs : frameInv s) : frameInv (frameStep op s) := by
  cases op with
  | executeFrame =>
    simp only [frameStep, frameInv] at hs ⊢
    split_ifs with hlt
    · exact hlt
    · exact hs
  | receiveFrameCeiling m =>
    simp only [frameStep, frameInv] at hs ⊢
    exact le_trans hs (Nat.le_max_left _ _)
  | recordSync => exact hs

lemma frameStep_monotone (op : FrameOp) (s : FrameState) :
    frameLe s (frameStep op s) := by
  cases op with
  | executeFrame =>
    simp only [frameStep, frameLe]
    split_ifs <;> simp
  | receiveFrameCeiling m =>
    simp only [frameStep, frameLe]
    exact ⟨le_refl _, Nat.le_max_left _ _, le_refl _⟩
  | recordSync =>
    simp only [frameStep, frameLe]
    exact ⟨le_refl _, le_refl _, Nat.le_max_left _ _⟩

lemma frameRun_preserves_inv :
    ∀ (ops : List FrameOp) (s : FrameState), frameInv s →
      frameInv (frameRun ops s) := by
  intro ops
  induction ops with
  | nil => intro s hs; exact hs
  | cons op rest ih =>
    intro s hs
    exact ih (frameStep op s) (frameStep_preserves_inv op s hs)

/-- C3: the three frame counters are monotonically non-decreasing under
every protocol operation, the invariant "local executed frame is at most
the frame ceiling" is preserved by every operation, and it holds in every
state reachable from the initial state — a participant never advances its
local frame beyond the received frame ceiling. -/
theorem C3_frame_counters_monotone_and_bounded (ops : List FrameOp)
    (op : FrameOp) (s : FrameState) :
    frameInv (frameRun ops initFrameState) ∧
    (frameInv s → frameInv (frameStep op s)) ∧
    frameLe s (frameStep op s) := by
  refine ⟨?_, frameStep_preserves_inv op s, frameStep_monotone op s⟩
  exact frameRun_preserves_inv ops initFrameState (le_refl 0)

/-- C3 witness: after receiving a frame ceiling of 2 and executing three
frame steps from the initial state, the local frame has stopped at the
ceiling; a single execute step from a concrete mid-run state respects the
invariant and monotonicity. -/
theorem C3_witness :
    frameInv (frameRun
      [.receiveFrameCeiling 2, .executeFrame, .executeFrame, .executeFrame]
      initFrameState) ∧
    frameInv (frameStep .executeFrame ⟨1, 5, 0⟩) ∧
    frameLe ⟨1, 5, 0⟩ (frameStep .executeFrame ⟨1, 5, 0⟩) := by
  refine ⟨?_, ?_, ?_⟩
  · exact (C3_frame_counters_monotone_and_bounded
      [.receiveFrameCeiling 2, .executeFrame, .executeFrame, .executeFrame]
      .executeFrame ⟨1, 5, 0⟩).1
  · exact (C3_frame_counters_monotone_and_bounded []
      .executeFrame ⟨1, 5, 0⟩).2.1 (by norm_num [frameInv])
  · exact (C3_frame_counters_monotone_and_bounded []
      .executeFrame ⟨1, 5, 0⟩).2.2

/-- C4 counterexample: the claim's two parts contradict each other at its
own concrete input — at authoritative frame 1000 with lead time 5 the
assigned execution frame is 1005, which is not strictly greater than the
current frame plus the lead time (1000 + 5). -/
theorem C4_counterexample_assigned_frame_not_above_lead :
    assignExecutionFrame 1000 5 = 1005 ∧
    ¬ (1000 + 5 < assignExecutionFrame 1000 5) := by
  constructor
  · rfl
  · decide

/-- C4 (amended): the execution frame the authoritative side assigns to an
accepted command equals its current frame plus the fixed lead time — in
particular strictly greater than the current frame whenever the lead time
is positive — and a participant can apply the command exactly from that
frame on, never earlier. -/
theorem C4_command_frame_assignment (current lead : Nat)
    (cp : CommandPacket) :
    (distributeCommand current lead cp).frame = current + lead ∧
    (0 < lead → current < (distributeCommand current lead cp).frame) ∧
    (∀ f, f < current + lead →
      canExecuteCommand f (distributeCommand current lead cp) = false) ∧
    canExecuteCommand (current + lead) (distributeCommand current lead cp) =
      true := by
  refine ⟨rfl, ?_, ?_, ?_⟩
  · intro hpos
    simp only [distributeCommand, assignExecutionFrame]
    omega
  · intro f hf
    simp only [canExecuteCommand, distributeCommand, assignExecutionFrame]
    simp only [decide_eq_false_iff_not, not_le]
    exact hf
  · simp [canExecuteCommand, distributeCommand, assignExecutionFrame]

/-- C4 witness: the spec's Scenario A — a command accepted at frame 1000
with lead time 5 gets frame 1005, is not executable at frame 1004, and is
executable at frame 1005. -/
theorem C4_witness :
    (distributeCommand 1000 5 ⟨0, 0, false, 0, 0, 0, []⟩).frame = 1005 ∧
    1000 < (distributeCommand 1000 5 ⟨0, 0, false, 0, 0, 0, []⟩).frame ∧
    canExecuteCommand 1004
      (distributeCommand 1000 5 ⟨0, 0, false, 0, 0, 0, []⟩) = false ∧
    canExecuteCommand 1005
      (distributeCommand 1000 5 ⟨0, 0, false, 0, 0, 0, []⟩) = true := by
  refine ⟨?_, ?_, ?_, ?_⟩
  · exact (C4_command_frame_assignment 1000 5 ⟨0, 0, false, 0, 0, 0, []⟩).1
  · exact (C4_command_frame_assignment 1000 5
      ⟨0, 0, false, 0, 0, 0, []⟩).2.1 (by decide)
  · exact (C4_command_frame_assignment 1000 5
      ⟨0, 0, false, 0, 0, 0, []⟩).2.2.1 1004 (by decide)
  · exact (C4_command_frame_assignment 1000 5 ⟨0, 0, false, 0, 0, 0, []⟩).2.2.2

/-- C8: the `my_cmd` flag of a `CommandPacket` is never transmitted — two
command packets differing only in `my_cmd` serialize to identical wire
bytes, both as a `ClientCommand` body and as a `ServerCommand` body; the
`ServerCommand` body is exactly the `ClientCommand` body followed by the
frame of execution. -/
theorem C8_my_cmd_not_on_wire (cp : CommandPacket) (b : Bool) :
    NetworkGameSocketHandler.SendCommand { cp with my_cmd := b } =
      NetworkGameSocketHandler.SendCommand cp ∧
    NetworkGameSocketHandler.SendCommandWithFrame { cp with my_cmd := b } =
      NetworkGameSocketHandler.SendCommandWithFrame cp ∧
    NetworkGameSocketHandler.SendCommandWithFrame cp =
      NetworkGameSocketHandler.SendCommand cp ++ u32le cp.frame := by
  exact ⟨rfl, rfl, rfl⟩
